import Mathlib

/-!
Shallow embedding of the `pix` PixiJS demo (three animated scenes) and proofs
of the spec's testable properties.

Coordinates and times are rationals.  `Math.random()` draws and asynchronous
fetch outcomes are supplied as explicit oracle arguments, so every definition
is executable.  Container coordinate transforms in this repository are pure
translations (no stack container is ever scaled or rotated), so `toGlobal` /
`toLocal` reduce to adding / subtracting container positions; the embedding
carries those positions explicitly.
-/

namespace Pix

namespace Ace

/-! ### Card-stack scene (`AceOfShadowsScene.ts`) -/

/-- `CARD_OFFSET` constant of `AceOfShadowsScene.ts`. -/
def CARD_OFFSET : ℚ := 2

/-- `NUM_CARDS` constant of `AceOfShadowsScene.ts`. -/
def NUM_CARDS : ℕ := 144

/-- `ANIMATION_DURATION` constant (milliseconds). -/
def ANIMATION_DURATION : ℚ := 2000

/-- `MOVE_INTERVAL` constant (milliseconds). -/
def MOVE_INTERVAL : ℚ := 1000

/-- A card sprite while it is a child of a stack container: its id and its
stack-local y position (its x inside a stack is always 0). -/
structure Card where
  id : ℕ
  y : ℚ
deriving DecidableEq

/-- The `currentAnimation` record of `AceOfShadowsScene`.  `curX`/`curY` is the
in-flight card's scene-local position (the card is a direct child of the scene
container while it animates). -/
structure Anim where
  cardId : ℕ
  curX : ℚ
  curY : ℚ
  startX : ℚ
  startY : ℚ
  endX : ℚ
  endY : ℚ
  startTime : ℚ
deriving DecidableEq

/-- State of `AceOfShadowsScene`: the two stack containers' child lists and
scene-local positions, the direction flag, animation bookkeeping, and the
liveness of the scene (`this.parent`). -/
structure AceState where
  stack0 : List Card
  stack1 : List Card
  sx0 : ℚ
  sy0 : ℚ
  sx1 : ℚ
  sy1 : ℚ
  movingToSecondStack : Bool
  isAnimating : Bool
  parentAlive : Bool
  lastMoveTime : ℚ
  currentAnimation : Option Anim
deriving DecidableEq

/-- The source stack chosen by `startNewAnimation`. -/
def sourceStack (s : AceState) : List Card :=
  if s.movingToSecondStack then s.stack0 else s.stack1

/-- The target stack chosen by `startNewAnimation` / `finishAnimation`. -/
def targetStack (s : AceState) : List Card :=
  if s.movingToSecondStack then s.stack1 else s.stack0

/-- Scene-local x of the source stack container. -/
def sourceSx (s : AceState) : ℚ := if s.movingToSecondStack then s.sx0 else s.sx1

/-- Scene-local y of the source stack container. -/
def sourceSy (s : AceState) : ℚ := if s.movingToSecondStack then s.sy0 else s.sy1

/-- Scene-local x of the target stack container. -/
def targetSx (s : AceState) : ℚ := if s.movingToSecondStack then s.sx1 else s.sx0

/-- Scene-local y of the target stack container. -/
def targetSy (s : AceState) : ℚ := if s.movingToSecondStack then s.sy1 else s.sy0

/-- `startNewAnimation`: if the source stack is empty, flip the direction flag
and return; otherwise pop the top (last) child of the source stack, reparent it
to the scene at its former world position, and record the animation whose end
point is the target stack's slot `children.length * CARD_OFFSET` (computed
before insertion). -/
def startNewAnimation (now : ℚ) (s : AceState) : AceState :=
  match (sourceStack s).getLast? with
  | none => { s with movingToSecondStack := !s.movingToSecondStack }
  | some topCard =>
    let targetY : ℚ := (targetStack s).length * CARD_OFFSET
    let startX : ℚ := sourceSx s
    let startY : ℚ := sourceSy s + topCard.y
    let anim : Anim :=
      { cardId := topCard.id
        curX := startX
        curY := startY
        startX := startX
        startY := startY
        endX := targetSx s
        endY := targetSy s + targetY
        startTime := now }
    { s with
      stack0 := if s.movingToSecondStack then s.stack0.dropLast else s.stack0
      stack1 := if s.movingToSecondStack then s.stack1 else s.stack1.dropLast
      currentAnimation := some anim
      isAnimating := true
      lastMoveTime := now }

/-- `finishAnimation`: reparent the animated card into the target stack and set
its stack-local position to `(0, targetStack.children.length * CARD_OFFSET)`,
where the length is measured after the card has been added. -/
def finishAnimation (s : AceState) : AceState :=
  match s.currentAnimation with
  | none => { s with isAnimating := false }
  | some a =>
    let newCard : Card := { id := a.cardId, y := ((targetStack s).length + 1 : ℕ) * CARD_OFFSET }
    if s.movingToSecondStack then
      { s with stack1 := s.stack1 ++ [newCard], currentAnimation := none, isAnimating := false }
    else
      { s with stack0 := s.stack0 ++ [newCard], currentAnimation := none, isAnimating := false }

/-- The quadratic symmetric ease-in / ease-out of `update`. -/
def easeInOut (p : ℚ) : ℚ :=
  if p < 1/2 then 2 * p * p else 1 - (-2 * p + 2)^2 / 2

/-- The interpolated x written to the card by `update` at a given progress. -/
def animX (a : Anim) (p : ℚ) : ℚ := a.startX + (a.endX - a.startX) * easeInOut p

/-- The interpolated y written to the card by `update` at a given progress. -/
def animY (a : Anim) (p : ℚ) : ℚ := a.startY + (a.endY - a.startY) * easeInOut p

/-- The per-frame ticker callback `update`, driven by the current wall-clock
time: bails out when the scene is detached, starts a new animation on the move
cadence, advances the in-flight card along the eased path, and finishes the
animation once progress reaches 1. -/
def update (now : ℚ) (s : AceState) : AceState :=
  if s.parentAlive then
    let s1 :=
      if ¬ s.isAnimating ∧ now - s.lastMoveTime ≥ ANIMATION_DURATION + MOVE_INTERVAL then
        startNewAnimation now s
      else s
    if s1.isAnimating then
      match s1.currentAnimation with
      | none => s1
      | some a =>
        let progress : ℚ := min ((now - a.startTime) / ANIMATION_DURATION) 1
        let a' : Anim := { a with curX := animX a progress, curY := animY a progress }
        let s2 := { s1 with currentAnimation := some a' }
        if progress ≥ 1 then finishAnimation s2 else s2
    else s1
  else s

/-- One move cycle at the scene's cadence: `startNewAnimation` followed by the
matching `finishAnimation` when an animation actually started (the cycle is
skipped when the source stack was empty). -/
def moveCycle (now : ℚ) (s : AceState) : AceState :=
  let s1 := startNewAnimation now s
  if s1.isAnimating then finishAnimation s1 else s1

/-- No animation in flight: the state between complete move cycles. -/
def Quiesced (s : AceState) : Prop :=
  s.currentAnimation = none ∧ s.isAnimating = false

instance (s : AceState) : Decidable (Quiesced s) := by
  unfold Quiesced; infer_instance

/-- Combined number of card entities across the two piles. -/
def pileCount (s : AceState) : ℕ := s.stack0.length + s.stack1.length

/-- Multiset of the card ids across the two piles. -/
def pileIds (s : AceState) : Multiset ℕ := ((s.stack0 ++ s.stack1).map Card.id : List ℕ)

/-- The initial state built by `initialize`: 144 cards in stack 0, card `i` at
stack-local y `i * CARD_OFFSET`, none in stack 1. -/
def initState (sx0 sy0 sx1 sy1 : ℚ) : AceState :=
  { stack0 := (List.range NUM_CARDS).map fun i => { id := i, y := i * CARD_OFFSET }
    stack1 := []
    sx0 := sx0, sy0 := sy0, sx1 := sx1, sy1 := sy1
    movingToSecondStack := true
    isAnimating := false
    parentAlive := true
    lastMoveTime := 0
    currentAnimation := none }

/-- A small concrete quiesced state: two cards in stack 0, none in stack 1,
moving toward the second stack. -/
def exC4State : AceState :=
  { stack0 := [{ id := 0, y := 0 }, { id := 1, y := 2 }]
    stack1 := []
    sx0 := 0, sy0 := 0, sx1 := 10, sy1 := 0
    movingToSecondStack := true
    isAnimating := false
    parentAlive := true
    lastMoveTime := 0
    currentAnimation := none }

end Ace

namespace Flame

/-! ### Flame scene (`PhoenixFlameScene.ts`) -/

/-- `MAX_PARTICLES` constant. -/
def MAX_PARTICLES : ℕ := 10

/-- `PARTICLE_LIFETIME` constant. -/
def PARTICLE_LIFETIME : ℚ := 40

/-- `INITIAL_SPRITE_SCALE` constant. -/
def INITIAL_SPRITE_SCALE : ℚ := 4/5

/-- A pooled particle: its sprite's position, scale and alpha together with
the velocity, age and lifetime bookkeeping of the `Particle` interface. -/
structure FParticle where
  x : ℚ
  y : ℚ
  vx : ℚ
  vy : ℚ
  life : ℚ
  maxLife : ℚ
  scale : ℚ
  alpha : ℚ
deriving DecidableEq

/-- State of `PhoenixFlameScene`: the particle pool, the liveness of the scene
(`this.parent`), and the fixed emission point (top of the house sprite). -/
structure FlameState where
  particles : List FParticle
  parentAlive : Bool
  houseX : ℚ
  houseTop : ℚ
deriving DecidableEq

/-- `initializeParticle`: places the sprite at the top of the house, installs
an oracle-supplied random velocity (the code draws `cos`/`sin` of a random
angle times a random speed), resets the scale to `INITIAL_SPRITE_SCALE` and
the alpha to 0.8.  Returns the particle record fields it fixes. -/
def initializeParticle (s : FlameState) (vx vy : ℚ) (life maxLife : ℚ) : FParticle :=
  { x := s.houseX
    y := s.houseTop
    vx := vx
    vy := vy
    life := life
    maxLife := maxLife
    scale := INITIAL_SPRITE_SCALE
    alpha := 4/5 }

/-- `emitParticle`: skipped when the scene is detached or the pool is already
at `MAX_PARTICLES`; otherwise pushes a fresh particle (life 0, lifetime
`PARTICLE_LIFETIME`) initialized at the emission point. -/
def emitParticle (rnd : ℚ × ℚ) (s : FlameState) : FlameState :=
  if s.parentAlive then
    if s.particles.length ≥ MAX_PARTICLES then s
    else { s with particles :=
      s.particles ++ [initializeParticle s rnd.1 rnd.2 0 PARTICLE_LIFETIME] }
  else s

/-- The per-frame ticker callback `update`: skipped when the scene is
detached; otherwise every particle is advanced in place (the source loop runs
from the last index down to 0, touching only index `i` in iteration `i`, so it
is an index-wise map).  `o i` supplies the random draws consumed if particle
`i` is recycled this frame. -/
def update (delta : ℚ) (o : ℕ → ℚ × ℚ) (s : FlameState) : FlameState :=
  if s.parentAlive then
    { s with particles := s.particles.mapIdx fun i p =>
      let life' := p.life + delta
      if life' ≥ p.maxLife then
        initializeParticle s (o i).1 (o i).2 0 p.maxLife
      else
        { p with
          x := p.x + p.vx
          y := p.y + p.vy
          vy := p.vy - 1/40
          life := life'
          scale := INITIAL_SPRITE_SCALE * (1 - (life' / p.maxLife) * (7/10)) } }
  else s

/-- `destroy`: clears the emission interval and ticker and empties the pool. -/
def destroy (s : FlameState) : FlameState :=
  { s with particles := [], parentAlive := false }

/-- An event delivered to the scene while it is mounted: an emission-timer
firing (with its random draws) or a frame update (with its delta and the
recycling oracle). -/
inductive FEvent
  | emit (rnd : ℚ × ℚ)
  | tick (delta : ℚ) (o : ℕ → ℚ × ℚ)

/-- Apply one event. -/
def applyEvent (e : FEvent) (s : FlameState) : FlameState :=
  match e with
  | .emit rnd => emitParticle rnd s
  | .tick delta o => update delta o s

/-- Run a sequence of events. -/
def run (es : List FEvent) (s : FlameState) : FlameState :=
  es.foldl (fun t e => applyEvent e t) s

/-- The state right after `initialize`: empty pool, mounted scene. -/
def initFlameState (houseX houseTop : ℚ) : FlameState :=
  { particles := [], parentAlive := true, houseX := houseX, houseTop := houseTop }

end Flame

namespace MW

/-! ### Dialogue scene (`MagicWordsScene.ts`) -/

/-- JSON-like values of the fetched payload. -/
inductive Json where
  | null
  | bool (b : Bool)
  | num (q : ℚ)
  | str (s : String)
  | arr (elems : List Json)
  | obj (fields : List (String × Json))

/-- Property access on an object; `none` models JavaScript `undefined` (also
the result of a named-property access on an array or primitive). -/
def lookupField : List (String × Json) → String → Option Json
  | [], _ => none
  | (k', v) :: rest, k => if k' = k then some v else lookupField rest k

/-- `value[key]` as used by the validator. -/
def getField : Json → String → Option Json
  | .obj fs, k => lookupField fs k
  | _, _ => none

/-- `typeof v === 'string'` on a property access result. -/
def isStringField (v : Option Json) : Bool :=
  match v with
  | some (.str _) => true
  | _ => false

/-- `Array.isArray` on a property access result, returning the elements. -/
def getArrField (j : Json) (k : String) : Option (List Json) :=
  match getField j k with
  | some (.arr xs) => some xs
  | _ => none

/-- Element check for `dialogue`: an object with string `name` and `text`. -/
def isValidLine (j : Json) : Bool :=
  isStringField (getField j "name") && isStringField (getField j "text")

/-- Element check for `emojies`: an object with string `name` and `url`. -/
def isValidEmoji (j : Json) : Bool :=
  isStringField (getField j "name") && isStringField (getField j "url")

/-- Element check for `avatars`: string `name` and `url`, and `position`
equal to the string `left` or `right`. -/
def isValidAvatar (j : Json) : Bool :=
  isStringField (getField j "name") && isStringField (getField j "url") &&
    (match getField j "position" with
     | some (.str p) => p = "left" || p = "right"
     | _ => false)

/-- `isValidDialogueData`: the payload must be a (truthy) object whose
`dialogue`, `emojies` and `avatars` properties are arrays, every element of
which passes its shape check. -/
def isValidDialogueData (j : Json) : Bool :=
  match getArrField j "dialogue", getArrField j "emojies", getArrField j "avatars" with
  | some ds, some es, some avs =>
    ds.all isValidLine && es.all isValidEmoji && avs.all isValidAvatar
  | _, _, _ => false

/-- A dialogue line of the typed `DialogueData`. -/
structure DialogueLine where
  name : String
  text : String
deriving DecidableEq

/-- An emoji asset entry. -/
structure EmojiAsset where
  name : String
  url : String
deriving DecidableEq

/-- The `position` discriminator of an avatar entry. -/
inductive Side where
  | left
  | right
deriving DecidableEq

/-- An avatar asset entry. -/
structure AvatarAsset where
  name : String
  url : String
  position : Side
deriving DecidableEq

/-- The typed payload stored in `this.dialogueData`. -/
structure DialogueData where
  dialogue : List DialogueLine
  emojies : List EmojiAsset
  avatars : List AvatarAsset
deriving DecidableEq

/-- String content of a property access (unreachable default for payloads
that passed validation). -/
def asString (v : Option Json) : String :=
  match v with
  | some (.str s) => s
  | _ => ""

/-- Read one dialogue line from its validated JSON object. -/
def lineOfJson (j : Json) : DialogueLine :=
  { name := asString (getField j "name"), text := asString (getField j "text") }

/-- Read one emoji entry from its validated JSON object. -/
def emojiOfJson (j : Json) : EmojiAsset :=
  { name := asString (getField j "name"), url := asString (getField j "url") }

/-- Read one avatar entry from its validated JSON object. -/
def avatarOfJson (j : Json) : AvatarAsset :=
  { name := asString (getField j "name")
    url := asString (getField j "url")
    position := match getField j "position" with
      | some (.str p) => if p = "right" then Side.right else Side.left
      | _ => Side.left }

/-- The typed view of a validated payload (`this.dialogueData = data`). -/
def extractData (j : Json) : DialogueData :=
  { dialogue := ((getArrField j "dialogue").getD []).map lineOfJson
    emojies := ((getArrField j "emojies").getD []).map emojiOfJson
    avatars := ((getArrField j "avatars").getD []).map avatarOfJson }

/-- The try / retry-once structure of `preloadAssets` for a single asset:
`o k` is the outcome of the k-th fetch of this asset's URL.  Returns whether
the texture ended up set, and how many fetches were performed. -/
def loadAsset (o : ℕ → Bool) : Bool × ℕ :=
  if o 0 then (true, 1)
  else if o 1 then (true, 2)
  else (false, 2)

/-- State of `MagicWordsScene` as far as the claims observe it.  Sprite maps
are modelled by their key lists; `alive` is `this.parent`. -/
structure MWState where
  alive : Bool
  dialogueData : Option DialogueData
  currentLineIndex : ℕ
  isAnimating : Bool
  currentCharIndex : ℕ
  isLoading : Bool
  uiSetup : Bool
  errorShown : Bool
  emojiSprites : List String
  emojiTextures : List String
  avatarSprites : List String
  continueVisible : Bool
  restartVisible : Bool
  loadedAssets : ℕ
deriving DecidableEq

/-- The state the constructor leaves behind (loading text shown, no data). -/
def mkScene : MWState :=
  { alive := true
    dialogueData := none
    currentLineIndex := 0
    isAnimating := false
    currentCharIndex := 0
    isLoading := true
    uiSetup := false
    errorShown := false
    emojiSprites := []
    emojiTextures := []
    avatarSprites := []
    continueVisible := false
    restartVisible := false
    loadedAssets := 0 }

/-- The opening-brace character of an inline `[emoji-name]`-style token
(written by code point to keep it out of string literals). -/
def lbChar : Char := Char.ofNat 123

/-- The closing-brace character of an inline token. -/
def rbChar : Char := Char.ofNat 125

/-- One step of the `/[([^\x7d]+)]/g`-style token search (brackets standing
for braces): from the characters following an opening brace, take the maximal
nonempty run of non-closing-brace characters, then require a closing brace. -/
def takeToken (cs : List Char) : Option (String × List Char) :=
  match cs.dropWhile (fun d => d ≠ rbChar) with
  | [] => none
  | _ :: rest2 =>
    if (cs.takeWhile fun d => d ≠ rbChar).isEmpty then none
    else some (String.mk (cs.takeWhile fun d => d ≠ rbChar), rest2)

/-- The scanner of `parseTextWithEmojis`: walks the raw text; each inline
token is replaced by two spaces and recorded with the index
`parsedText.length - 1` (the second space); an unmatched or empty brace pair
is kept literally.  `out` is the parsed text so far, reversed. -/
def scanEmojis : List Char → List Char → List (String × ℕ) → String × List (String × ℕ)
  | [], out, toks => (String.mk out.reverse, toks.reverse)
  | c :: rest, out, toks =>
    if c = lbChar then
      match h : takeToken rest with
      | none => scanEmojis rest (c :: out) toks
      | some (nm, rest2) =>
        let out2 := ' ' :: ' ' :: out
        scanEmojis rest2 out2 ((nm, out2.length - 1) :: toks)
    else scanEmojis rest (c :: out) toks
termination_by cs _ _ => cs.length
decreasing_by
  · simp
  · refine Nat.lt_succ_of_lt ?_
    unfold takeToken at h
    split at h
    · exact absurd h (by simp)
    · rename_i d tail hd
      split at h
      · exact absurd h (by simp)
      · simp only [Option.some.injEq, Prod.mk.injEq] at h
        obtain ⟨-, rfl⟩ := h
        have hle := (List.dropWhile_suffix (l := rest) (fun d => d ≠ rbChar)).length_le
        rw [hd] at hle
        exact Nat.lt_of_succ_le (by simpa using hle)
  · simp

/-- `parseTextWithEmojis` of the dialogue scene: returns the display text (with
inline tokens replaced by two spaces) and the emoji names with their reveal
indices. -/
def parseTextWithEmojis (text : String) : String × List (String × ℕ) :=
  scanEmojis text.data [] []

/-- `Map.set` on a sprite map modelled by its key list: overwriting an
existing key does not grow the map. -/
def mapSet (keys : List String) (k : String) : List String :=
  if k ∈ keys then keys else keys ++ [k]

/-- The dialogue line at the playback position (out-of-range access yields the
empty line; unreachable while `isAnimating`). -/
def currentLine (d : DialogueData) (i : ℕ) : DialogueLine :=
  d.dialogue.getD i { name := "", text := "" }

/-- `addEmoji`: looks the named emoji up in the payload and bails out unless
its texture was preloaded; otherwise creates a sprite and stores it in the
`emojiSprites` map (the trailing space it also appends only affects character
sprites, which the claims do not observe). -/
def addEmoji (name : String) (s : MWState) : MWState :=
  if name ∈ s.emojiTextures then { s with emojiSprites := mapSet s.emojiSprites name } else s

/-- The end-of-dialogue branch shared by `showCurrentLine` and `nextLine`:
static end text, continue hidden, restart shown. -/
def endOfDialogue (s : MWState) : MWState :=
  { s with continueVisible := false, restartVisible := true }

/-- `showCurrentLine`: past the last line (or without data) show the end
state; otherwise begin revealing the current line (`animateText` first clears
the dialogue container, emptying the emoji sprite map). -/
def showCurrentLine (s : MWState) : MWState :=
  match s.dialogueData with
  | none => endOfDialogue s
  | some d =>
    if s.currentLineIndex ≥ d.dialogue.length then endOfDialogue s
    else
      { s with isAnimating := true, currentCharIndex := 0,
               continueVisible := false, restartVisible := false,
               emojiSprites := [] }

/-- `startNewLine`: begin revealing the line at the playback position. -/
def startNewLine (s : MWState) : MWState :=
  match s.dialogueData with
  | none => s
  | some _ =>
    { s with isAnimating := true, currentCharIndex := 0,
             continueVisible := false, restartVisible := false,
             emojiSprites := [] }

/-- `nextLine`: with data present, clear the emoji sprites, advance the
playback position by one, and either start the next line or show the end
state. -/
def nextLine (s : MWState) : MWState :=
  match s.dialogueData with
  | none => s
  | some d =>
    let s2 := { s with emojiSprites := [], currentLineIndex := s.currentLineIndex + 1 }
    if s2.currentLineIndex < d.dialogue.length then startNewLine s2
    else endOfDialogue s2

/-- `restartDialogue`: reset the playback position, animation flags and emoji
sprites, then show line 0. -/
def restartDialogue (s : MWState) : MWState :=
  showCurrentLine
    { s with currentLineIndex := 0, isAnimating := false, currentCharIndex := 0,
             emojiSprites := [], restartVisible := false, continueVisible := false }

/-- One step of the `animateText` reveal timer with captured local index `j`:
reveal the character or emoji at `j`, or finish the line and show the
continue button. -/
def revealTick (j : ℕ) (s : MWState) : MWState :=
  match s.dialogueData with
  | none => s
  | some d =>
    let p := parseTextWithEmojis (currentLine d s.currentLineIndex).text
    if j < p.1.length then
      match p.2.find? (fun e => e.2 = j) with
      | some e => addEmoji e.1 s
      | none => s
    else { s with isAnimating := false, continueVisible := true }

/-- The public per-frame `update` of the dialogue scene: inert while loading;
while a line is animating it appends the character at `currentCharIndex` (to a
detached text object), possibly creates the emoji sprite due at that index,
and advances `currentCharIndex`; at end of text it stops animating and shows
the continue button. -/
def updateFrame (s : MWState) : MWState :=
  if s.isLoading then s
  else
    match s.dialogueData with
    | none => s
    | some d =>
      if s.isAnimating then
        let p := parseTextWithEmojis (currentLine d s.currentLineIndex).text
        if s.currentCharIndex < p.1.length then
          let s1 :=
            match p.2.find? (fun e => e.2 = s.currentCharIndex) with
            | some e => addEmoji e.1 s
            | none => s
          { s1 with currentCharIndex := s1.currentCharIndex + 1 }
        else { s with isAnimating := false, continueVisible := true }
      else s

/-- `preloadAssets`: each emoji and avatar URL is fetched with one retry;
successfully loaded emojis get their texture set, successfully loaded avatars
additionally get a sprite in the avatar map, and the progress counter counts
the successes.  A double failure is only logged: the asset is skipped. -/
def preloadAssets (fetchOk : String → ℕ → Bool) (s : MWState) : MWState :=
  match s.dialogueData with
  | none => s
  | some d =>
    let okEmojis := d.emojies.filter fun e => (loadAsset (fetchOk e.url)).1
    let okAvatars := d.avatars.filter fun a => (loadAsset (fetchOk a.url)).1
    { s with
      emojiTextures := okEmojis.map EmojiAsset.name
      avatarSprites := okAvatars.map AvatarAsset.name
      loadedAssets := okEmojis.length + okAvatars.length }

/-- Outcome of the dialogue fetch: a rejection or non-ok HTTP status (both
throw before the payload is used), or a JSON body. -/
inductive FetchOutcome where
  | failure
  | ok (body : Json)

/-- The `initialize` coroutine of the dialogue scene, run to completion: on a
fetch failure or a payload that fails validation, the catch block shows the
static error text (the loading text is not removed and no UI is set up);
otherwise the payload is stored, assets are preloaded, the loading text is
replaced by the dialogue UI and the first line starts revealing.  Note there
is no liveness check anywhere on this path: the continuation runs the same
way on a torn-down scene. -/
def initializeScene (f : FetchOutcome) (fetchOk : String → ℕ → Bool) (s : MWState) : MWState :=
  match f with
  | .failure => { s with errorShown := true }
  | .ok j =>
    if isValidDialogueData j then
      let s1 := { s with dialogueData := some (extractData j) }
      let s2 := preloadAssets fetchOk s1
      let s3 := { s2 with isLoading := false, uiSetup := true }
      showCurrentLine s3
    else { s with errorShown := true }

/-- The operations that can touch the playback state after loading. -/
inductive MWOp where
  | continueClick
  | frame
  | tick (j : ℕ)
  | restart
deriving DecidableEq

/-- Apply one operation. -/
def applyOp : MWOp → MWState → MWState
  | .continueClick, s => nextLine s
  | .frame, s => updateFrame s
  | .tick j, s => revealTick j s
  | .restart, s => restartDialogue s

/-- A small valid payload: one dialogue line, one emoji, no avatars. -/
def exPayload : Json :=
  Json.obj
    [("dialogue", Json.arr [Json.obj [("name", Json.str "Sheldon"), ("text", Json.str "hi")]]),
     ("emojies", Json.arr [Json.obj [("name", Json.str "sad"), ("url", Json.str "u1")]]),
     ("avatars", Json.arr [])]

/-- A torn-down scene right after the constructor. -/
def exDeadScene : MWState := { mkScene with alive := false }

end MW

namespace Ace

/-- One move cycle on a quiesced state with an empty source pile only flips
the direction flag. -/
theorem moveCycle_empty_source (now : ℚ) (s : AceState) (h : Quiesced s)
    (hs : sourceStack s = []) :
    moveCycle now s = { s with movingToSecondStack := !s.movingToSecondStack } := by
  obtain ⟨hca, hia⟩ := h
  have hl : (sourceStack s).getLast? = none := by rw [hs]; rfl
  simp [moveCycle, startNewAnimation, hl, hia]

/-- One move cycle on a quiesced state with a nonempty source pile pops its
top card, appends it to the target pile at slot `(n+1) * CARD_OFFSET`, keeps
the direction flag, and ends quiesced. -/
theorem moveCycle_concat (now : ℚ) (s : AceState) (h : Quiesced s)
    (l : List Card) (a : Card) (hs : sourceStack s = l ++ [a]) :
    (moveCycle now s).movingToSecondStack = s.movingToSecondStack ∧
    sourceStack (moveCycle now s) = l ∧
    targetStack (moveCycle now s) =
      targetStack s ++ [{ id := a.id, y := ((targetStack s).length + 1 : ℕ) * CARD_OFFSET }] ∧
    Quiesced (moveCycle now s) := by
  obtain ⟨hca, hia⟩ := h
  cases hmts : s.movingToSecondStack with
  | false =>
    have hs1 : s.stack1 = l ++ [a] := by simpa [sourceStack, hmts] using hs
    simp [moveCycle, startNewAnimation, finishAnimation, sourceStack, targetStack,
      Quiesced, hmts, hs1]
  | true =>
    have hs0 : s.stack0 = l ++ [a] := by simpa [sourceStack, hmts] using hs
    simp [moveCycle, startNewAnimation, finishAnimation, sourceStack, targetStack,
      Quiesced, hmts, hs0]

/-- One move cycle preserves quiescence and the multiset of card ids across
the two piles. -/
theorem moveCycle_preserves (now : ℚ) (s : AceState) (h : Quiesced s) :
    Quiesced (moveCycle now s) ∧ pileIds (moveCycle now s) = pileIds s := by
  rcases (sourceStack s).eq_nil_or_concat with hs | ⟨l, a, hs⟩
  · rw [moveCycle_empty_source now s h hs]
    exact ⟨⟨h.1, h.2⟩, rfl⟩
  · rw [List.concat_eq_append] at hs
    obtain ⟨hca, hia⟩ := h
    cases hmts : s.movingToSecondStack with
    | false =>
      have hs1 : s.stack1 = l ++ [a] := by simpa [sourceStack, hmts] using hs
      refine ⟨(moveCycle_concat now s ⟨hca, hia⟩ l a hs).2.2.2, ?_⟩
      simp only [moveCycle, startNewAnimation, finishAnimation, sourceStack, targetStack,
        pileIds, hmts, hs1, List.getLast?_concat, List.dropLast_concat]
      simp [hs1]
      exact List.Perm.append_left _ ((List.perm_append_singleton _ _).symm)
    | true =>
      have hs0 : s.stack0 = l ++ [a] := by simpa [sourceStack, hmts] using hs
      refine ⟨(moveCycle_concat now s ⟨hca, hia⟩ l a hs).2.2.2, ?_⟩
      simp only [moveCycle, startNewAnimation, finishAnimation, sourceStack, targetStack,
        pileIds, hmts, hs0, List.getLast?_concat, List.dropLast_concat]
      simp [hs0]
      exact List.Perm.append_left _ (List.perm_append_singleton _ _)

/-- `pileCount` is the cardinality of `pileIds`. -/
theorem pileCount_eq_card (s : AceState) : pileCount s = Multiset.card (pileIds s) := by
  simp [pileCount, pileIds]

/-- Claim C1: for every initial pile configuration, after any number of move
cycles (a cycle being `startNewAnimation` followed by the matching
`finishAnimation`, or a skipped cycle on an empty source) the combined number
of card entities across the two piles, and even the multiset of card ids, is
unchanged; on the scene's actual initial state that count is 144
(`NUM_CARDS`), so no card is ever created, duplicated, or lost. -/
theorem aceC1 :
    (∀ (now : ℚ) (s : AceState), Quiesced s → ∀ k : ℕ,
      pileCount ((moveCycle now)^[k] s) = pileCount s ∧
      pileIds ((moveCycle now)^[k] s) = pileIds s) ∧
    (∀ (sx0 sy0 sx1 sy1 now : ℚ) (k : ℕ),
      pileCount ((moveCycle now)^[k] (initState sx0 sy0 sx1 sy1)) = 144) := by
  have main : ∀ (now : ℚ) (s : AceState), Quiesced s → ∀ k : ℕ,
      Quiesced ((moveCycle now)^[k] s) ∧ pileIds ((moveCycle now)^[k] s) = pileIds s := by
    intro now s h k
    induction k with
    | zero => exact ⟨h, rfl⟩
    | succ n ih =>
      rw [Function.iterate_succ_apply']
      obtain ⟨hq, hid⟩ := ih
      obtain ⟨hq', hid'⟩ := moveCycle_preserves now _ hq
      exact ⟨hq', hid'.trans hid⟩
  refine ⟨fun now s h k => ?_, fun sx0 sy0 sx1 sy1 now k => ?_⟩
  · obtain ⟨_, hid⟩ := main now s h k
    refine ⟨?_, hid⟩
    rw [pileCount_eq_card, pileCount_eq_card, hid]
  · have h0 : Quiesced (initState sx0 sy0 sx1 sy1) := ⟨rfl, rfl⟩
    obtain ⟨_, hid⟩ := main now _ h0 k
    rw [pileCount_eq_card, hid, ← pileCount_eq_card]
    simp [pileCount, initState, NUM_CARDS]

/-- Witness for C1: two cycles on the concrete two-card state keep the
combined pile count at 2. -/
theorem aceC1_witness :
    pileCount ((moveCycle 0)^[2] exC4State) = pileCount exC4State :=
  (aceC1.1 0 exC4State (by decide) 2).1

/-- Claim C4 counterexample: starting from a quiesced state with two cards in
stack 0 and direction "toward the second stack", the first (successful) cycle
does not swap the roles — the direction flag is still `true`, so the second
cycle again drains stack 0 (leaving it empty with both cards on stack 1)
instead of moving the card back as a per-cycle swap would. -/
theorem aceC4_counterexample :
    (moveCycle 0 exC4State).movingToSecondStack = true ∧
    sourceStack (moveCycle 0 exC4State) = [{ id := 0, y := 0 }] ∧
    (moveCycle 0 (moveCycle 0 exC4State)).stack0 = [] ∧
    (moveCycle 0 (moveCycle 0 exC4State)).stack1.length = 2 := by decide

/-- Claim C4 (amended): at each move cadence the top entity of the source
pile is popped and appended to the top of the destination pile; the
source/destination roles persist across successful moves and flip only when
the source pile is empty, in which case the cycle is skipped — the direction
flips without any animation starting. -/
theorem aceC4 (now : ℚ) (s : AceState) (h : Quiesced s) :
    (sourceStack s = [] →
      moveCycle now s = { s with movingToSecondStack := !s.movingToSecondStack }) ∧
    (∀ (l : List Card) (a : Card), sourceStack s = l ++ [a] →
      (moveCycle now s).movingToSecondStack = s.movingToSecondStack ∧
      sourceStack (moveCycle now s) = l ∧
      targetStack (moveCycle now s) =
        targetStack s ++ [{ id := a.id, y := ((targetStack s).length + 1 : ℕ) * CARD_OFFSET }] ∧
      Quiesced (moveCycle now s)) :=
  ⟨moveCycle_empty_source now s h, fun l a hs => moveCycle_concat now s h l a hs⟩

/-- Witness for C4 (amended): on the concrete two-card state the successful
cycle keeps the direction flag. -/
theorem aceC4_witness :
    (moveCycle 0 exC4State).movingToSecondStack = exC4State.movingToSecondStack :=
  ((aceC4 0 exC4State (by decide)).2 [{ id := 0, y := 0 }] { id := 1, y := 2 }
    (by decide)).1

/-- Claim C5: the eased interpolation written by `update` equals the start
value at progress 0 and the end value at progress 1; equivalently the
quadratic symmetric easing maps 0 to 0 and 1 to 1. -/
theorem aceC5 (a : Anim) :
    animX a 0 = a.startX ∧ animY a 0 = a.startY ∧
    animX a 1 = a.endX ∧ animY a 1 = a.endY ∧
    easeInOut 0 = 0 ∧ easeInOut 1 = 1 := by
  have h0 : easeInOut 0 = 0 := by norm_num [easeInOut]
  have h1 : easeInOut 1 = 1 := by norm_num [easeInOut]
  refine ⟨?_, ?_, ?_, ?_, h0, h1⟩ <;> simp [animX, animY, h0, h1]

/-- Claim C9: for every completed move the card's final resting stack-local
y position set by `finishAnimation` is `(n+1) * CARD_OFFSET`, where `n` is the
pre-move size of the destination pile, while the transition's animated end
position `endY` was computed from the pre-insertion count `n`; in scene
coordinates the resting position is exactly one `CARD_OFFSET` below the
animated end position. -/
theorem aceC9 (now : ℚ) (s : AceState) (l : List Card) (a : Card)
    (hs : sourceStack s = l ++ [a]) :
    ((startNewAnimation now s).currentAnimation.map Anim.endY) =
      some (targetSy s + ((targetStack s).length : ℚ) * CARD_OFFSET) ∧
    targetStack (finishAnimation (startNewAnimation now s)) =
      targetStack s ++ [{ id := a.id, y := ((targetStack s).length + 1 : ℕ) * CARD_OFFSET }] ∧
    targetSy s + (((targetStack s).length + 1 : ℕ) : ℚ) * CARD_OFFSET =
      (targetSy s + ((targetStack s).length : ℚ) * CARD_OFFSET) + CARD_OFFSET := by
  cases hmts : s.movingToSecondStack with
  | false =>
    have hs1 : s.stack1 = l ++ [a] := by simpa [sourceStack, hmts] using hs
    refine ⟨?_, ?_, ?_⟩
    · simp [startNewAnimation, sourceStack, targetStack, targetSy, hmts, hs1]
    · simp [startNewAnimation, finishAnimation, sourceStack, targetStack, hmts, hs1]
    · push_cast
      ring
  | true =>
    have hs0 : s.stack0 = l ++ [a] := by simpa [sourceStack, hmts] using hs
    refine ⟨?_, ?_, ?_⟩
    · simp [startNewAnimation, sourceStack, targetStack, targetSy, hmts, hs0]
    · simp [startNewAnimation, finishAnimation, sourceStack, targetStack, hmts, hs0]
    · push_cast
      ring

/-- Witness for C9: instantiated on the concrete two-card state. -/
theorem aceC9_witness :
    ((startNewAnimation 0 exC4State).currentAnimation.map Anim.endY) =
      some (targetSy exC4State + ((targetStack exC4State).length : ℚ) * CARD_OFFSET) ∧
    targetStack (finishAnimation (startNewAnimation 0 exC4State)) =
      targetStack exC4State ++
        [{ id := 1, y := ((targetStack exC4State).length + 1 : ℕ) * CARD_OFFSET }] ∧
    targetSy exC4State + (((targetStack exC4State).length + 1 : ℕ) : ℚ) * CARD_OFFSET =
      (targetSy exC4State + ((targetStack exC4State).length : ℚ) * CARD_OFFSET) + CARD_OFFSET :=
  aceC9 0 exC4State [{ id := 0, y := 0 }] { id := 1, y := 2 } (by decide)

end Ace

namespace Flame

/-- `update` never changes the pool size. -/
theorem update_length (delta : ℚ) (o : ℕ → ℚ × ℚ) (s : FlameState) :
    (update delta o s).particles.length = s.particles.length := by
  unfold update
  by_cases h : s.parentAlive = true <;> simp [h]

/-- `emitParticle` never shrinks the pool. -/
theorem emit_length_ge (rnd : ℚ × ℚ) (s : FlameState) :
    s.particles.length ≤ (emitParticle rnd s).particles.length := by
  unfold emitParticle
  by_cases h : s.parentAlive = true <;>
    by_cases h2 : s.particles.length ≥ MAX_PARTICLES <;> simp [h, h2]

/-- `emitParticle` keeps the pool within `MAX_PARTICLES`. -/
theorem emit_length_le (rnd : ℚ × ℚ) (s : FlameState)
    (h : s.particles.length ≤ MAX_PARTICLES) :
    (emitParticle rnd s).particles.length ≤ MAX_PARTICLES := by
  unfold emitParticle
  by_cases ha : s.parentAlive = true <;>
    by_cases h2 : s.particles.length ≥ MAX_PARTICLES <;> simp [ha, h2, h]
  omega

/-- Claim C2: from any state whose pool is within the configured maximum (in
particular the initial empty pool), after every sequence and cadence of
emission-timer firings and frame updates the pool size never exceeds
`MAX_PARTICLES` (= 10): `emitParticle` adds a particle only when there is
spare capacity and `update` never grows the pool. -/
theorem flameC2 (es : List FEvent) (s : FlameState)
    (h : s.particles.length ≤ MAX_PARTICLES) :
    (run es s).particles.length ≤ MAX_PARTICLES := by
  induction es generalizing s with
  | nil => exact h
  | cons e es ih =>
    show (run es (applyEvent e s)).particles.length ≤ MAX_PARTICLES
    apply ih
    cases e with
    | emit rnd => exact emit_length_le rnd s h
    | tick delta o => show (update delta o s).particles.length ≤ MAX_PARTICLES
                      rw [update_length]; exact h

/-- Witness for C2: one emission then one frame on the freshly initialized
scene stays within the cap. -/
theorem flameC2_witness :
    (run [FEvent.emit (1, 1), FEvent.tick 1 fun _ => (0, 0)]
      (initFlameState 0 0)).particles.length ≤ MAX_PARTICLES :=
  flameC2 _ _ (by decide)

/-- Claim C10: while the scene is alive the pool size is monotonically
non-decreasing — the per-frame `update` only recycles end-of-life particles in
place and never removes one, every event sequence can only grow the pool —
and only `destroy` empties it. -/
theorem flameC10 :
    (∀ (delta : ℚ) (o : ℕ → ℚ × ℚ) (s : FlameState),
      (update delta o s).particles.length = s.particles.length) ∧
    (∀ (es : List FEvent) (s : FlameState),
      s.particles.length ≤ (run es s).particles.length) ∧
    (∀ s : FlameState, (destroy s).particles = []) := by
  refine ⟨update_length, ?_, fun _ => rfl⟩
  intro es s
  induction es generalizing s with
  | nil => exact le_refl _
  | cons e es ih =>
    refine le_trans ?_ (ih (applyEvent e s))
    cases e with
    | emit rnd => exact emit_length_ge rnd s
    | tick delta o => show s.particles.length ≤ (update delta o s).particles.length
                      rw [update_length]

end Flame

namespace MW

/-- Claim C3: a fetched payload that fails structural validation always ends
initialization in the error-fallback state: the static error text is shown,
`dialogueData` stays null, no dialogue UI is set up, and no line is revealed
(the scene never leaves the loading state and no reveal is in progress). -/
theorem mwC3 (j : Json) (fetchOk : String → ℕ → Bool)
    (h : isValidDialogueData j = false) :
    (initializeScene (.ok j) fetchOk mkScene).errorShown = true ∧
    (initializeScene (.ok j) fetchOk mkScene).dialogueData = none ∧
    (initializeScene (.ok j) fetchOk mkScene).uiSetup = false ∧
    (initializeScene (.ok j) fetchOk mkScene).isLoading = true ∧
    (initializeScene (.ok j) fetchOk mkScene).isAnimating = false ∧
    (initializeScene (.ok j) fetchOk mkScene).currentLineIndex = 0 ∧
    (initializeScene (.ok j) fetchOk mkScene).currentCharIndex = 0 ∧
    (initializeScene (.ok j) fetchOk mkScene).emojiSprites = [] := by
  simp [initializeScene, h, mkScene]

/-- Witness for C3: a payload with no `dialogue` array yields the error
fallback and nothing else. -/
theorem mwC3_witness :
    (initializeScene (.ok (Json.obj [])) (fun _ _ => true) mkScene).errorShown = true ∧
    (initializeScene (.ok (Json.obj [])) (fun _ _ => true) mkScene).dialogueData = none ∧
    (initializeScene (.ok (Json.obj [])) (fun _ _ => true) mkScene).uiSetup = false ∧
    (initializeScene (.ok (Json.obj [])) (fun _ _ => true) mkScene).isLoading = true ∧
    (initializeScene (.ok (Json.obj [])) (fun _ _ => true) mkScene).isAnimating = false ∧
    (initializeScene (.ok (Json.obj [])) (fun _ _ => true) mkScene).currentLineIndex = 0 ∧
    (initializeScene (.ok (Json.obj [])) (fun _ _ => true) mkScene).currentCharIndex = 0 ∧
    (initializeScene (.ok (Json.obj [])) (fun _ _ => true) mkScene).emojiSprites = [] :=
  mwC3 (Json.obj []) (fun _ _ => true) (by decide)

/-- Claim C6 counterexample: on a valid payload with one emoji whose fetch
and whose retry both fail, initialization still completes to the normal
dialogue UI — no permanent error state is surfaced (no static error message
replaces the content); the asset is merely skipped (no texture set). -/
theorem mwC6_counterexample :
    (initializeScene (.ok exPayload) (fun _ _ => false) mkScene).errorShown = false ∧
    (initializeScene (.ok exPayload) (fun _ _ => false) mkScene).uiSetup = true ∧
    (initializeScene (.ok exPayload) (fun _ _ => false) mkScene).emojiTextures = [] ∧
    (initializeScene (.ok exPayload) (fun _ _ => false) mkScene).loadedAssets = 0 := by
  decide

/-- Claim C6 (amended): every transient asset fetch that fails is retried
exactly once (one fetch on success, exactly two when the first fails, never
more); when the retry also fails the failure is only logged and the asset is
skipped — its texture is never set (and no avatar sprite is created) — while
initialization continues to the normal dialogue UI with no error state
surfaced. -/
theorem mwC6 :
    (∀ o : ℕ → Bool,
      (o 0 = true → loadAsset o = (true, 1)) ∧
      (o 0 = false → o 1 = true → loadAsset o = (true, 2)) ∧
      (o 0 = false → o 1 = false → loadAsset o = (false, 2))) ∧
    (∀ (j : Json) (fetchOk : String → ℕ → Bool), isValidDialogueData j = true →
      (initializeScene (.ok j) fetchOk mkScene).errorShown = false ∧
      (initializeScene (.ok j) fetchOk mkScene).uiSetup = true ∧
      (initializeScene (.ok j) fetchOk mkScene).emojiTextures =
        ((extractData j).emojies.filter fun e => (loadAsset (fetchOk e.url)).1).map
          EmojiAsset.name ∧
      (initializeScene (.ok j) fetchOk mkScene).avatarSprites =
        ((extractData j).avatars.filter fun a => (loadAsset (fetchOk a.url)).1).map
          AvatarAsset.name) := by
  constructor
  · intro o
    refine ⟨fun h0 => ?_, fun h0 h1 => ?_, fun h0 h1 => ?_⟩ <;> simp [loadAsset, h0]
    · simp [h1]
    · simp [h1]
  · intro j fetchOk h
    simp only [initializeScene, h, if_true]
    unfold showCurrentLine preloadAssets endOfDialogue
    split
    · simp_all [mkScene]
    · rename_i d hd
      simp only [Option.some.injEq] at hd
      split <;> simp_all [mkScene]

/-- Witness for C6 (amended): a double failure makes exactly two fetches and
no texture, and on the concrete payload with all fetches failing the scene
still reaches the normal UI. -/
theorem mwC6_witness :
    loadAsset (fun _ => false) = (false, 2) ∧
    (initializeScene (.ok exPayload) (fun _ _ => false) mkScene).errorShown = false ∧
    (initializeScene (.ok exPayload) (fun _ _ => false) mkScene).uiSetup = true :=
  ⟨(mwC6.1 (fun _ => false)).2.2 rfl rfl,
   (mwC6.2 exPayload (fun _ _ => false) (by decide)).1,
   (mwC6.2 exPayload (fun _ _ => false) (by decide)).2.1⟩

/-- `revealTick` never changes the playback position. -/
theorem revealTick_lineIndex (j : ℕ) (s : MWState) :
    (revealTick j s).currentLineIndex = s.currentLineIndex := by
  unfold revealTick addEmoji
  split
  · rfl
  · dsimp only
    split
    · split
      · split <;> rfl
      · rfl
    · rfl

/-- `updateFrame` never changes the playback position. -/
theorem updateFrame_lineIndex (s : MWState) :
    (updateFrame s).currentLineIndex = s.currentLineIndex := by
  unfold updateFrame addEmoji
  split
  · rfl
  · split
    · rfl
    · dsimp only
      split
      · split
        · split
          · split <;> rfl
          · rfl
        · rfl
      · rfl

/-- `nextLine` never decreases the playback position. -/
theorem nextLine_lineIndex (s : MWState) :
    s.currentLineIndex ≤ (nextLine s).currentLineIndex := by
  unfold nextLine startNewLine endOfDialogue
  split
  · exact le_refl _
  · dsimp only
    split
    · split <;> simp
    · simp

/-- `restartDialogue` resets the playback position to 0 and leaves no emoji
sprite from the previous run. -/
theorem restartDialogue_resets (s : MWState) :
    (restartDialogue s).currentLineIndex = 0 ∧ (restartDialogue s).emojiSprites = [] := by
  unfold restartDialogue showCurrentLine endOfDialogue
  split
  · exact ⟨rfl, rfl⟩
  · split <;> exact ⟨rfl, rfl⟩

/-- Claim C7: the playback position is monotonically non-decreasing under
every operation (continue click, frame update, reveal tick) except the
explicit restart, and `restartDialogue` resets the displayed progress to line
0 with no residual inline emoji sprites. -/
theorem mwC7 :
    (∀ (s : MWState) (op : MWOp), op ≠ MWOp.restart →
      s.currentLineIndex ≤ (applyOp op s).currentLineIndex) ∧
    (∀ s : MWState,
      (applyOp MWOp.restart s).currentLineIndex = 0 ∧
      (applyOp MWOp.restart s).emojiSprites = []) := by
  constructor
  · intro s op hop
    cases op with
    | continueClick => exact nextLine_lineIndex s
    | frame => exact le_of_eq (updateFrame_lineIndex s).symm
    | tick j => exact le_of_eq (revealTick_lineIndex j s).symm
    | restart => exact absurd rfl hop
  · intro s
    exact restartDialogue_resets s

/-- Witness for C7: a continue click from a concrete loaded state does not
decrease the position, and restart resets it. -/
theorem mwC7_witness :
    mkScene.currentLineIndex ≤ (applyOp MWOp.continueClick mkScene).currentLineIndex ∧
    (applyOp MWOp.restart mkScene).currentLineIndex = 0 ∧
    (applyOp MWOp.restart mkScene).emojiSprites = [] :=
  ⟨mwC7.1 mkScene MWOp.continueClick (by decide), mwC7.2 mkScene⟩

end MW

/-- Claim C8 counterexample: the dialogue scene's in-flight fetch
continuation performs no liveness check — run against a scene that has
already been torn down (`alive = false`), it still stores the payload and
sets up the dialogue UI, mutating the dead scene's entities. -/
theorem sceneC8_counterexample :
    MW.exDeadScene.alive = false ∧
    MW.exDeadScene.dialogueData.isSome = false ∧
    (MW.initializeScene (.ok MW.exPayload) (fun _ _ => true) MW.exDeadScene).dialogueData.isSome
      = true ∧
    (MW.initializeScene (.ok MW.exPayload) (fun _ _ => true) MW.exDeadScene).uiSetup = true := by
  decide

/-- Claim C8 (amended): the frame-tick callbacks of the card and flame scenes
and the flame scene's emission-timer callback each check the liveness
condition (`this.parent`) and leave the scene unmutated when it is detached;
the dialogue scene's fetch continuation, however, performs no liveness check
and applies its result — storing the data and setting up the UI, or showing
the error text — even on a torn-down scene. -/
theorem sceneC8 :
    (∀ (delta : ℚ) (o : ℕ → ℚ × ℚ) (s : Flame.FlameState),
      s.parentAlive = false → Flame.update delta o s = s) ∧
    (∀ (rnd : ℚ × ℚ) (s : Flame.FlameState),
      s.parentAlive = false → Flame.emitParticle rnd s = s) ∧
    (∀ (now : ℚ) (s : Ace.AceState),
      s.parentAlive = false → Ace.update now s = s) ∧
    (∀ (j : MW.Json) (fetchOk : String → ℕ → Bool) (s : MW.MWState),
      s.alive = false →
        (MW.isValidDialogueData j = true →
          (MW.initializeScene (.ok j) fetchOk s).uiSetup = true ∧
          (MW.initializeScene (.ok j) fetchOk s).dialogueData.isSome = true) ∧
        (MW.isValidDialogueData j = false →
          (MW.initializeScene (.ok j) fetchOk s).errorShown = true)) := by
  refine ⟨?_, ?_, ?_, ?_⟩
  · intro delta o s h
    unfold Flame.update
    simp [h]
  · intro rnd s h
    unfold Flame.emitParticle
    simp [h]
  · intro now s h
    unfold Ace.update
    simp [h]
  · intro j fetchOk s h
    constructor
    · intro hv
      simp only [MW.initializeScene, hv, if_true]
      unfold MW.showCurrentLine MW.preloadAssets MW.endOfDialogue
      split
      · simp_all
      · rename_i d hd
        split <;> simp_all
    · intro hv
      simp [MW.initializeScene, hv]

/-- Witness for C8 (amended): instantiated on concrete dead scenes. -/
theorem sceneC8_witness :
    Flame.update 1 (fun _ => (0, 0)) (Flame.destroy (Flame.initFlameState 0 0)) =
      Flame.destroy (Flame.initFlameState 0 0) ∧
    (MW.initializeScene (.ok MW.exPayload) (fun _ _ => false) MW.exDeadScene).uiSetup = true :=
  ⟨sceneC8.1 1 (fun _ => (0, 0)) _ rfl,
   ((sceneC8.2.2.2 MW.exPayload (fun _ _ => false) MW.exDeadScene rfl).1 (by decide)).1⟩

end Pix
